import Mathlib

/-!
Shallow embedding of the duckmcp server shim (a DuckDB MCP server written in
TypeScript) and proofs about its contracts.

The embedding mirrors the TypeScript source:
  * `src/tools/query.ts`   — `QueryTools` (`executeQuery`, `explainQuery`,
    `validateQuery`, `formatResults`)
  * `src/database/loader.ts` — `DataLoader` (`detectPathType`, `loadData`,
    `loadDirectoryData`, `createTableForFileType`,
    `createTableForIndividualFiles`, `generateTableName`)
  * `src/database/connection.ts` — `DuckDBConnection` (`connect`, `close`,
    `isConnected`, `getConfig`)
  * `src/index.ts` — the tool-call dispatch handler.

JavaScript dynamic values are modelled by the inductive `Value` together with
JavaScript truthiness (`jsTruthy`) and string coercion (`jsToString`).  The
external DuckDB engine, the file system and the glob library are modelled as
function parameters (oracles), since the shim treats them as opaque
collaborators.  Elapsed wall-clock time is an input parameter.
-/

namespace Duckmcp

/-- A JavaScript runtime value as it appears in engine row objects:
`null`, `undefined`, finite numbers (modelled as integers), `NaN`,
strings and booleans. -/
inductive Value where
  | vnull
  | vundefined
  | vnum (n : Int)
  | vnan
  | vstr (s : String)
  | vbool (b : Bool)
deriving DecidableEq, Repr

/-- JavaScript truthiness of a `Value`: `null`, `undefined`, `NaN`, `0`,
`false` and `""` are falsy, everything else truthy. -/
def jsTruthy : Value → Bool
  | .vnull => false
  | .vundefined => false
  | .vnum n => n ≠ 0
  | .vnan => false
  | .vstr s => s ≠ ""
  | .vbool b => b

/-- JavaScript `String(v)` coercion of a `Value`. -/
def jsToString : Value → String
  | .vnull => "null"
  | .vundefined => "undefined"
  | .vnum n => toString n
  | .vnan => "NaN"
  | .vstr s => s
  | .vbool b => if b then "true" else "false"

/-- The cell rendering used throughout `QueryTools.formatResults`:
`String(cell || '')` — a truthy cell is coerced to a string, a falsy cell
renders as the empty string. -/
def displayCell (v : Value) : String :=
  if jsTruthy v then jsToString v else ""

/-- JavaScript array indexing `row[i]`: out-of-range reads give `undefined`. -/
def jsIndex (row : List Value) (i : Nat) : Value :=
  row.getD i Value.vundefined

/-- An engine row object: an ordered association list of key/value pairs
(`Object.keys` order is the list order). -/
def Row : Type := List (String × Value)

/-- JavaScript property read `row[col]` on a row object: the first binding of
the key, `undefined` when absent. -/
def rowGet (row : Row) (col : String) : Value :=
  match (List.find? (fun p => p.1 == col) row) with
  | some p => p.2
  | none => Value.vundefined

/-- `QueryResult` from `src/types.ts`:
`{ columns: string[], rows: any[][], rowCount: number, executionTime?: number }`. -/
structure QueryResult where
  columns : List String
  rows : List (List Value)
  rowCount : Nat
  executionTime : Option Nat
deriving DecidableEq, Repr

/-- `QueryTools.executeQuery(sql)` from `src/tools/query.ts`, with the engine's
answer for the statement (`null`/missing rows modelled as `none`) and the
measured elapsed time `t` as explicit inputs.  Empty or missing row array ⇒
empty result envelope; otherwise columns are the key order of the first row
and every row is projected into that column order.  Engine failure is
re-thrown wrapped with the elapsed time. -/
def executeQuery (engineRows : Except String (Option (List Row))) (t : Nat) :
    Except String QueryResult :=
  match engineRows with
  | .error msg =>
      .error ("Query execution failed (" ++ toString t ++ "ms): " ++ msg)
  | .ok none =>
      .ok { columns := [], rows := [], rowCount := 0, executionTime := some t }
  | .ok (some rows) =>
      match rows with
      | [] =>
          .ok { columns := [], rows := [], rowCount := 0, executionTime := some t }
      | first :: _ =>
          let columns := first.map Prod.fst
          let arrayRows := rows.map (fun row => columns.map (fun col => rowGet row col))
          .ok { columns := columns, rows := arrayRows,
                rowCount := rows.length, executionTime := some t }

/-- JavaScript truthiness of an optional number (e.g. the `limit` argument or
`executionTime` field): absent or `0` is falsy. -/
def jsOptTruthy : Option Nat → Bool
  | none => false
  | some n => n != 0

/-- `String.prototype.padEnd(w)` with spaces: pad on the right up to width `w`
(no-op when the string is already at least that wide). -/
def padEnd (s : String) (w : Nat) : String :=
  s.pushn ' ' (w - s.length)

/-- The rows actually rendered by `formatResults`:
`limit ? result.rows.slice(0, limit) : result.rows` — note the JavaScript
truthiness test, under which `limit = 0` means "no limit". -/
def displayedRows (result : QueryResult) (limit : Option Nat) : List (List Value) :=
  if jsOptTruthy limit then result.rows.take (limit.getD 0) else result.rows

/-- Column widths in `formatResults`:
`Math.max(col.length, Math.max(...displayRows.map(row => String(row[i] || '').length)), 3)`. -/
def colWidths (result : QueryResult) (limit : Option Nat) : List Nat :=
  result.columns.enum.map (fun p =>
    let dataWidth := ((displayedRows result limit).map
      (fun row => (displayCell (jsIndex row p.1)).length)).foldl Nat.max 0
    Nat.max p.2.length (Nat.max dataWidth 3))

/-- One data line in `formatResults`:
`row.map((cell, i) => String(cell || '').padEnd(colWidths[i])).join(' | ')`. -/
def rowLine (widths : List Nat) (row : List Value) : String :=
  String.intercalate " | "
    (row.enum.map (fun p => padEnd (displayCell p.2) (widths.getD p.1 0)))

/-- The header line of `formatResults`:
`result.columns.map((col, i) => col.padEnd(colWidths[i])).join(' | ')`. -/
def formatHeader (result : QueryResult) (limit : Option Nat) : String :=
  String.intercalate " | "
    (result.columns.enum.map (fun p => padEnd p.2 ((colWidths result limit).getD p.1 0)))

/-- The separator line of `formatResults`:
`colWidths.map(width => '-'.repeat(width)).join('-|-')`. -/
def formatSeparator (result : QueryResult) (limit : Option Nat) : String :=
  String.intercalate "-|-" ((colWidths result limit).map (fun w => "".pushn '-' w))

/-- The data-row block of `formatResults`: each displayed row rendered by
`rowLine` followed by a newline. -/
def formatBody (result : QueryResult) (limit : Option Nat) : String :=
  String.join
    ((displayedRows result limit).map (fun row => rowLine (colWidths result limit) row ++ "\n"))

/-- The timing suffix of `formatResults`: `" (Nms)"` when `executionTime` is
truthy (present and nonzero), empty otherwise. -/
def formatTiming (result : QueryResult) : String :=
  if jsOptTruthy result.executionTime then
    " (" ++ toString (result.executionTime.getD 0) ++ "ms)"
  else ""

/-- `QueryTools.formatResults(result, limit?)` from `src/tools/query.ts`:
header, dash separator, data rows, an optional "... and N more rows" footer
(shown when `limit` is truthy and `rows.length > limit`), and a trailing
row-count line with the optional timing suffix. -/
def formatResults (result : QueryResult) (limit : Option Nat) : String :=
  if result.rowCount = 0 then
    "No results returned."
  else
    formatHeader result limit ++ "\n" ++ formatSeparator result limit ++ "\n"
      ++ formatBody result limit
      ++ (if jsOptTruthy limit && decide (limit.getD 0 < result.rows.length) then
            "\n... and " ++ toString ((result.rowCount : Int) - (limit.getD 0 : Int))
              ++ " more rows\n"
          else "")
      ++ "\n" ++ toString result.rowCount ++ " rows" ++ formatTiming result

/-- `QueryTools.explainQuery(sql)`: `executeQuery` on the statement prefixed
with `EXPLAIN `. -/
def explainQuery (engine : String → Except String (Option (List Row)))
    (sql : String) (t : Nat) : Except String QueryResult :=
  executeQuery (engine ("EXPLAIN " ++ sql)) t

/-- The result record of `QueryTools.validateQuery`. -/
structure ValidateResult where
  valid : Bool
  error : Option String
deriving DecidableEq, Repr

/-- `QueryTools.validateQuery(sql)`: try `explainQuery`; success gives
`{valid: true}`, any failure is caught and reported as
`{valid: false, error}` — a total function, no exception escapes. -/
def validateQuery (engine : String → Except String (Option (List Row)))
    (sql : String) (t : Nat) : ValidateResult :=
  match explainQuery engine sql t with
  | .ok _ => { valid := true, error := none }
  | .error m => { valid := false, error := some m }

/-- Statement helper: replace a falsy cell by `null` (used to express that
falsy cells are indistinguishable in the rendered output). -/
def nullifyFalsy (v : Value) : Value :=
  if jsTruthy v then v else Value.vnull

/-- `DatabaseConfig` from `src/types.ts`:
`{ path: string, isDirectory: boolean, readonly: boolean }`. -/
structure DatabaseConfig where
  path : String
  isDirectory : Bool
  readonly : Bool
deriving DecidableEq, Repr

/-- Index of the last occurrence of a character in a list. -/
def lastIdxOf (c : Char) (cs : List Char) : Option Nat :=
  match cs.reverse.findIdx? (· = c) with
  | none => none
  | some j => some (cs.length - 1 - j)

/-- Split a character list on a separator character (the list analogue of
`String.split`). -/
def splitChars (sep : Char) : List Char → List (List Char)
  | [] => [[]]
  | c :: rest =>
      let r := splitChars sep rest
      if c = sep then [] :: r
      else
        match r with
        | [] => [[c]]
        | h :: t => (c :: h) :: t

/-- Split a path into its `/`-separated components. -/
def splitOnSlash (p : String) : List String :=
  (splitChars '/' p.data).map String.mk

/-- Character-by-character string rewrite, as JavaScript's global-regex
`String.prototype.replace` and `toLowerCase` perform. -/
def mapChars (f : Char → Char) (s : String) : String :=
  String.mk (s.data.map f)

/-- JavaScript `toLowerCase()` (ASCII range, which covers the file
extensions compared against). -/
def toLowerCase (s : String) : String :=
  mapChars Char.toLower s

/-- Node `path.basename` (posix, no suffix argument): the last nonempty
path component. -/
def basename (p : String) : String :=
  ((splitOnSlash p).filter (fun s => s ≠ "")).getLastD ""

/-- Node `path.extname` (posix): the suffix of the basename from its last
dot, empty when there is no dot, when the only dot is leading (a dotfile),
or for the special name `..`. -/
def extname (p : String) : String :=
  let base := (splitOnSlash p).getLastD ""
  if base = ".." then ""
  else
    match lastIdxOf '.' base.data with
    | none => ""
    | some 0 => ""
    | some i => String.mk (base.data.drop i)

/-- Outcome of `fs.promises.stat` on a path: a directory, a regular file,
some other kind of entry, a missing path (`ENOENT`), or another stat
failure. -/
inductive StatOutcome where
  | dir
  | file
  | other
  | enoent
  | statFail (msg : String)
deriving DecidableEq, Repr

/-- `DataLoader.detectPathType(inputPath)` from `src/database/loader.ts`,
with the file system passed as an oracle.  Directory → directory config;
file with lowercased extension `.db`/`.duckdb`/`.sqlite` → read-only file
config; file with any other extension → unsupported-file-type error
(thrown in the `try`, re-thrown by the `catch` since its code is not
`ENOENT`); missing path → path-not-found error; other stat failures are
re-thrown; anything else → invalid-path error. -/
def detectPathType (fs : String → StatOutcome) (inputPath : String) :
    Except String DatabaseConfig :=
  match fs inputPath with
  | .dir => .ok { path := inputPath, isDirectory := true, readonly := true }
  | .file =>
      let ext := toLowerCase (extname inputPath)
      if ext = ".db" ∨ ext = ".duckdb" ∨ ext = ".sqlite" then
        .ok { path := inputPath, isDirectory := false, readonly := true }
      else
        .error ("Unsupported file type: " ++ ext
          ++ ". Use .db, .duckdb, or specify a directory.")
  | .enoent => .error ("Path does not exist: " ++ inputPath)
  | .statFail m => .error m
  | .other => .error ("Invalid path: " ++ inputPath)

/-- `path.join(a, b)` for the loader's posix-style patterns. -/
def joinPath (a b : String) : String :=
  a ++ "/" ++ b

/-- `s.replace(/\\/g, '/')`: normalize Windows separators. -/
def slashify (s : String) : String :=
  mapChars (fun c => if c = '\\' then '/' else c) s

/-- `[...new Set(files)]`: de-duplicate keeping first occurrences. -/
def dedup (l : List String) : List String :=
  l.foldl (fun acc f => if f ∈ acc then acc else acc ++ [f]) []

/-- `DataLoader.generateTableName(basePath, fileType)`: the sanitized base
name of the directory (non-`[a-zA-Z0-9_]` characters replaced by `_`)
joined with the extension. -/
def generateTableName (basePath fileType : String) : String :=
  let baseName := basename basePath
  let safeName := mapChars (fun c => if c.isAlphanum ∨ c = '_' then c else '_') baseName
  safeName ++ "_" ++ fileType

/-- The `CREATE VIEW` statement of `createTableForFileType`'s `switch`
(bulk glob-pattern registration); the `default` branch throws. -/
def bulkViewSql (fileType tableName globPattern : String) : Except String String :=
  if fileType = "csv" then
    .ok ("CREATE VIEW " ++ tableName ++ " AS SELECT * FROM read_csv('" ++ globPattern
      ++ "', auto_detect=true, hive_partitioning=true)")
  else if fileType = "parquet" then
    .ok ("CREATE VIEW " ++ tableName ++ " AS SELECT * FROM read_parquet('" ++ globPattern
      ++ "', hive_partitioning=true)")
  else if fileType = "json" ∨ fileType = "jsonl" then
    .ok ("CREATE VIEW " ++ tableName ++ " AS SELECT * FROM read_json('" ++ globPattern
      ++ "', auto_detect=true, hive_partitioning=true)")
  else
    .error ("Unsupported file type: " ++ fileType)

/-- The `CREATE VIEW` statement of `createTableForIndividualFiles`'s
`switch` over a single file path. -/
def singleFileSql (fileType tableName filePath : String) : Except String String :=
  if fileType = "csv" then
    .ok ("CREATE VIEW " ++ tableName ++ " AS SELECT * FROM read_csv('" ++ filePath
      ++ "', auto_detect=true)")
  else if fileType = "parquet" then
    .ok ("CREATE VIEW " ++ tableName ++ " AS SELECT * FROM read_parquet('" ++ filePath ++ "')")
  else if fileType = "json" ∨ fileType = "jsonl" then
    .ok ("CREATE VIEW " ++ tableName ++ " AS SELECT * FROM read_json('" ++ filePath
      ++ "', auto_detect=true)")
  else
    .error ("Unsupported file type: " ++ fileType)

/-- The `CREATE VIEW` statement of `createTableForIndividualFiles`'s
`switch` over an explicit file list. -/
def fileListSql (fileType tableName : String) (files : List String) : Except String String :=
  let fileList := String.intercalate ", " (files.map (fun f => "'" ++ f ++ "'"))
  if fileType = "csv" then
    .ok ("CREATE VIEW " ++ tableName ++ " AS SELECT * FROM read_csv([" ++ fileList
      ++ "], auto_detect=true)")
  else if fileType = "parquet" then
    .ok ("CREATE VIEW " ++ tableName ++ " AS SELECT * FROM read_parquet([" ++ fileList ++ "])")
  else if fileType = "json" ∨ fileType = "jsonl" then
    .ok ("CREATE VIEW " ++ tableName ++ " AS SELECT * FROM read_json([" ++ fileList
      ++ "], auto_detect=true)")
  else
    .error ("Unsupported file type: " ++ fileType)

/-- `DataLoader.createTableForIndividualFiles` (the fallback path): build a
single-file or explicit-list registration statement and run it; a failure is
logged and re-thrown (`throw error`). -/
def createTableForIndividualFiles (engine : String → Except String Unit)
    (tableName fileType : String) (files : List String) : Except String Unit :=
  let normalizedFiles := files.map slashify
  let sql :=
    match normalizedFiles with
    | [f] => singleFileSql fileType tableName f
    | _ => fileListSql fileType tableName normalizedFiles
  match sql with
  | .error e => .error e
  | .ok s =>
      match engine s with
      | .ok _ => .ok ()
      | .error e => .error e

/-- `DataLoader.createTableForFileType`: try the bulk glob-pattern view
registration; on failure fall back to per-file registration (whose own
failure is re-thrown to the caller). -/
def createTableForFileType (engine : String → Except String Unit)
    (fileType basePath : String) (files : List String) : Except String Unit :=
  let tableName := generateTableName basePath fileType
  let globPattern := slashify (joinPath basePath ("**/*." ++ fileType))
  match bulkViewSql fileType tableName globPattern with
  | .error e => .error e
  | .ok sql =>
      match engine sql with
      | .ok _ => .ok ()
      | .error _ => createTableForIndividualFiles engine tableName fileType files

/-- The supported data-file extensions, in loading order. -/
def supportedExtensions : List String :=
  ["csv", "parquet", "json", "jsonl"]

/-- One iteration of `loadDirectoryData`'s loop body: glob the shallow and
recursive patterns (each pattern failure is caught and skipped), de-duplicate,
and register a view when at least one file matched. -/
def attemptExtension (engine : String → Except String Unit)
    (globber : String → Except String (List String)) (dataPath ext : String) :
    Except String Unit :=
  let patterns := [joinPath dataPath ("*." ++ ext), joinPath dataPath ("**/*." ++ ext)]
  let files := dedup (patterns.foldl
    (fun acc pattern =>
      match globber (slashify pattern) with
      | .ok foundFiles => acc ++ foundFiles
      | .error _ => acc) [])
  if files.length > 0 then createTableForFileType engine ext dataPath files
  else .ok ()

/-- The `for` loop of `loadDirectoryData`: each iteration's body runs inside
`try { ... } catch { console.warn(...) }`, so whatever an iteration's outcome
is — success or caught failure — the loop records it and continues with the
next extension. -/
def loadExtLoop (engine : String → Except String Unit)
    (globber : String → Except String (List String)) (dataPath : String) :
    List String → List (String × Except String Unit)
  | [] => []
  | ext :: rest =>
      match attemptExtension engine globber dataPath ext with
      | .ok _ => (ext, .ok ()) :: loadExtLoop engine globber dataPath rest
      | .error e => (ext, .error e) :: loadExtLoop engine globber dataPath rest

/-- `DataLoader.loadDirectoryData()`: attempt every supported extension in
order, returning the per-extension outcomes. -/
def loadDirectoryData (engine : String → Except String Unit)
    (globber : String → Except String (List String)) (dataPath : String) :
    List (String × Except String Unit) :=
  loadExtLoop engine globber dataPath supportedExtensions

/-- `DataLoader.loadData()`: no-op for single-file targets, directory scan
otherwise. -/
def loadData (engine : String → Except String Unit)
    (globber : String → Except String (List String)) (config : DatabaseConfig) :
    List (String × Except String Unit) :=
  if config.isDirectory then loadDirectoryData engine globber config.path
  else []

/-- The database path and access mode chosen by `DuckDBConnection.connect()`:
`:memory:` in `read_write` mode for directory targets, the configured file in
`read_only` mode otherwise. -/
def connectTarget (config : DatabaseConfig) : String × String :=
  (if config.isDirectory then ":memory:" else config.path,
   if config.isDirectory then "read_write" else "read_only")

/-- `DuckDBConnection.connect()` from `src/database/connection.ts`, with the
engine's `new Database(path, {access_mode}, callback)` open modelled as an
oracle returning `some errMessage` on failure: a failure is wrapped as
`Failed to connect to DuckDB: <native message>`. -/
def connect (engineOpen : String → String → Option String) (config : DatabaseConfig) :
    Except String Unit :=
  match engineOpen (connectTarget config).1 (connectTarget config).2 with
  | some e => .error ("Failed to connect to DuckDB: " ++ e)
  | none => .ok ()

/-- The mutable state of a `DuckDBConnection`: the nullable engine handle
`this.db` (handles modelled as numbers). -/
structure ConnState where
  db : Option Nat
deriving DecidableEq, Repr

/-- `DuckDBConnection.isConnected()`: `this.db !== null`. -/
def isConnected (s : ConnState) : Bool :=
  s.db.isSome

/-- `DuckDBConnection.close()`, with the engine's `db.close(callback)`
modelled as an oracle `beh` giving `some errMessage` on failure.  Returns the
operation result, the post-state, and the list of engine handles the call
closed (the engine-call trace).  A `null` handle returns immediately with no
engine call; a failing engine close rejects with a wrapped message and leaves
`this.db` unchanged; a successful close nulls the handle. -/
def closeConn (beh : Nat → Option String) (s : ConnState) :
    Except String Unit × ConnState × List Nat :=
  match s.db with
  | none => (.ok (), s, [])
  | some h =>
      match beh h with
      | some e => (.error ("Failed to close database: " ++ e), s, [h])
      | none => (.ok (), { db := none }, [h])

/-- Statement helper: `await close(); await close()` — the second call runs
only when the first resolves, and the traces accumulate. -/
def closeConnTwice (beh : Nat → Option String) (s : ConnState) :
    Except String Unit × ConnState × List Nat :=
  let r := closeConn beh s
  match r.1 with
  | .error e => (.error e, r.2.1, r.2.2)
  | .ok _ =>
      let r2 := closeConn beh r.2.1
      (r2.1, r2.2.1, r.2.2 ++ r2.2.2)

/-- The default `DatabaseConfig` used when reading an unallocated heap cell
(never reached under the theorems' hypotheses). -/
def defaultConfig : DatabaseConfig :=
  { path := "", isDirectory := false, readonly := false }

/-- Read a heap cell (the JS object store modelled as a list of config
objects addressed by index). -/
def heapRead (h : List DatabaseConfig) (r : Nat) : Option DatabaseConfig :=
  h[r]?

/-- Mutate the object at address `r` in place (a caller-side field write). -/
def heapWrite : List DatabaseConfig → Nat → (DatabaseConfig → DatabaseConfig) →
    List DatabaseConfig
  | [], _, _ => []
  | c :: rest, 0, f => f c :: rest
  | c :: rest, Nat.succ n, f => c :: heapWrite rest n f

/-- `DuckDBConnection.getConfig()`: `return { ...this.config }` — allocate a
fresh object whose fields are copied from the internal config and return a
reference to it (together with the extended heap).  It reads the heap and
allocates; it performs no engine call and writes no existing cell. -/
def getConfig (h : List DatabaseConfig) (self : Nat) : Nat × List DatabaseConfig :=
  let c := (heapRead h self).getD defaultConfig
  (h.length,
   h ++ [{ path := c.path, isDirectory := c.isDirectory, readonly := c.readonly }])

/-- The field values `getConfig` copies out of the manager. -/
def getConfigValue (h : List DatabaseConfig) (self : Nat) : DatabaseConfig :=
  (heapRead h self).getD defaultConfig

/-- A content item of a tool-call response (`{type: 'text', text}`). -/
structure ToolContent where
  type : String
  text : String
deriving DecidableEq, Repr

/-- A tool-call response: content items plus the `isError` flag (absent in
success responses, modelled as `false`). -/
structure ToolResponse where
  content : List ToolContent
  isError : Bool
deriving DecidableEq, Repr

/-- The arguments object of a tool call (`table_name`, `sql`, optional
`limit`). -/
structure ToolArgs where
  table_name : String
  sql : String
  limit : Option Nat
deriving DecidableEq, Repr

/-- The tool implementations the dispatch switch delegates to, each modelled
by its observable behaviour at the dispatch boundary: the produced response
text, or the thrown error's message. -/
structure Tools where
  getTables : Except String String
  getTableSchema : String → Except String String
  describeTable : String → Except String String
  runQuery : String → Nat → Except String String
  summarizeTable : String → Except String String
  getDatabaseInfo : Except String String

/-- The tool names registered in the dispatch switch of
`DuckDBMCPServer.setupToolHandlers` (`src/index.ts`). -/
def knownToolNames : List String :=
  ["get_tables", "get_schema", "describe_table", "execute_query",
   "summarize_table", "get_database_info"]

/-- The body of the `CallToolRequestSchema` handler's `try` block: the
`switch` over the tool name (with `execute_query` applying the default
`limit = 100`), whose `default` branch throws `Unknown tool: <name>`. -/
def dispatchBody (tools : Tools) (name : String) (args : ToolArgs) :
    Except String String :=
  if name = "get_tables" then tools.getTables
  else if name = "get_schema" then tools.getTableSchema args.table_name
  else if name = "describe_table" then tools.describeTable args.table_name
  else if name = "execute_query" then tools.runQuery args.sql (args.limit.getD 100)
  else if name = "summarize_table" then tools.summarizeTable args.table_name
  else if name = "get_database_info" then tools.getDatabaseInfo
  else .error ("Unknown tool: " ++ name)

/-- The `CallToolRequestSchema` handler: run the switch inside `try`; a
success becomes a text content item, any thrown error is caught and returned
as an error-flagged content item `Error: <message>` — the handler itself is
total. -/
def callToolHandler (tools : Tools) (name : String) (args : ToolArgs) :
    ToolResponse :=
  match dispatchBody tools name args with
  | .ok text => { content := [{ type := "text", text := text }], isError := false }
  | .error m => { content := [{ type := "text", text := "Error: " ++ m }], isError := true }

end Duckmcp

namespace Duckmcp

/-- C1: `executeQuery` — empty/missing rows give the empty envelope with the
elapsed time; non-empty rows give columns = key order of the first row,
rowCount = number of rows, and every output row has `columns.length` entries
(each row projected into the first row's column order). -/
theorem executeQuery_spec (t : Nat) :
    executeQuery (.ok none) t
      = .ok { columns := [], rows := [], rowCount := 0, executionTime := some t } ∧
    executeQuery (.ok (some [])) t
      = .ok { columns := [], rows := [], rowCount := 0, executionTime := some t } ∧
    ∀ (first : Row) (rest : List Row) (r : QueryResult),
      executeQuery (.ok (some (first :: rest))) t = .ok r →
      r.columns = first.map Prod.fst ∧
      r.rowCount = (first :: rest).length ∧
      r.rows = (first :: rest).map (fun row => r.columns.map (fun col => rowGet row col)) ∧
      ∀ row ∈ r.rows, row.length = r.columns.length := by
  refine ⟨rfl, rfl, ?_⟩
  intro first rest r hr
  have hr' : r = { columns := first.map Prod.fst,
                   rows := (first :: rest).map
                     (fun row => (first.map Prod.fst).map (fun col => rowGet row col)),
                   rowCount := (first :: rest).length,
                   executionTime := some t } := by
    simpa [executeQuery] using hr.symm
  subst hr'
  refine ⟨rfl, rfl, rfl, ?_⟩
  intro row hrow
  simp only [List.mem_map] at hrow
  obtain ⟨src, _, hsrc⟩ := hrow
  simp [← hsrc]

/-- Witness for C1 at a concrete non-empty result. -/
theorem executeQuery_spec_witness :
    executeQuery (.ok (some [[("a", Value.vnum 1), ("b", Value.vnum 2)],
                             [("b", Value.vnum 4)]])) 5
      = .ok { columns := ["a", "b"],
              rows := [[Value.vnum 1, Value.vnum 2],
                       [Value.vundefined, Value.vnum 4]],
              rowCount := 2, executionTime := some 5 } ∧
    ({ columns := ["a", "b"],
       rows := [[Value.vnum 1, Value.vnum 2],
                [Value.vundefined, Value.vnum 4]],
       rowCount := 2, executionTime := some 5 } : QueryResult).columns
      = [("a", Value.vnum 1), ("b", Value.vnum 2)].map Prod.fst :=
  ⟨rfl, ((executeQuery_spec 5).2.2
      [("a", Value.vnum 1), ("b", Value.vnum 2)] [[("b", Value.vnum 4)]]
      _ rfl).1⟩

/-- C7: `validateQuery` never throws — it is a total function returning
`{valid: true}` exactly when `explainQuery` succeeds and
`{valid: false, error}` carrying the failure's message otherwise. -/
theorem validateQuery_spec (engine : String → Except String (Option (List Row)))
    (sql : String) (t : Nat) :
    (∀ q, explainQuery engine sql t = .ok q →
      validateQuery engine sql t = { valid := true, error := none }) ∧
    (∀ m, explainQuery engine sql t = .error m →
      validateQuery engine sql t = { valid := false, error := some m }) := by
  constructor
  · intro q hq
    simp [validateQuery, hq]
  · intro m hm
    simp [validateQuery, hm]

/-- Witness for C7 at a succeeding and at a failing engine. -/
theorem validateQuery_spec_witness :
    validateQuery (fun _ => .ok none) "SELECT 1" 0
      = { valid := true, error := none } ∧
    validateQuery (fun _ => .error "boom") "SELECT 1" 7
      = { valid := false, error := some "Query execution failed (7ms): boom" } :=
  ⟨(validateQuery_spec (fun _ => .ok none) "SELECT 1" 0).1 _ rfl,
   (validateQuery_spec (fun _ => .error "boom") "SELECT 1" 7).2 _ rfl⟩

/-- Two limits that display the same rows and both fail the footer test render
identically. -/
theorem formatResults_nofooter_congr (r : QueryResult) (l₁ l₂ : Option Nat)
    (hd : displayedRows r l₁ = displayedRows r l₂)
    (h₁ : (jsOptTruthy l₁ && decide (l₁.getD 0 < r.rows.length)) = false)
    (h₂ : (jsOptTruthy l₂ && decide (l₂.getD 0 < r.rows.length)) = false) :
    formatResults r l₁ = formatResults r l₂ := by
  have hw : colWidths r l₁ = colWidths r l₂ := by
    simp only [colWidths, hd]
  simp only [formatResults, formatHeader, formatSeparator, formatBody, hw, hd, h₁, h₂]
  simp

/-- C3 (counterexample): at `limit = 0` (which is `< rowCount`), the claim
demands at most `0` data rows and a "... and 2 more rows" footer; the code
treats the falsy limit as "no limit", displays both rows and emits no footer
(identical to the unlimited rendering). -/
theorem formatResults_limit_zero_cex :
    (displayedRows { columns := ["a"], rows := [[Value.vnum 1], [Value.vnum 2]],
                     rowCount := 2, executionTime := some 0 } (some 0)).length = 2 ∧
    ¬ (("... and 2 more rows").data <:+:
        (formatResults { columns := ["a"], rows := [[Value.vnum 1], [Value.vnum 2]],
                         rowCount := 2, executionTime := some 0 } (some 0)).data) ∧
    formatResults { columns := ["a"], rows := [[Value.vnum 1], [Value.vnum 2]],
                    rowCount := 2, executionTime := some 0 } (some 0)
      = formatResults { columns := ["a"], rows := [[Value.vnum 1], [Value.vnum 2]],
                        rowCount := 2, executionTime := some 0 } none :=
  ⟨rfl, by decide, rfl⟩

/-- C3 (amended): for a well-formed result (`rowCount = rows.length`,
`rowCount > 0`) and a truthy limit `0 < limit < rowCount`, `formatResults`
displays exactly `limit` data rows and its output contains the footer
"... and K more rows" with `K = rowCount - limit`; for `limit ≥ rowCount`
or `limit = 0` the output equals the unlimited rendering, which displays
every row and has no footer. -/
theorem formatResults_limit_spec (r : QueryResult) (limit : Nat)
    (hwf : r.rowCount = r.rows.length) (hpos : 0 < r.rowCount) :
    (0 < limit → limit < r.rowCount →
      (displayedRows r (some limit)).length = limit ∧
      ∃ pre post, formatResults r (some limit)
        = pre ++ ("\n... and " ++ toString ((r.rowCount : Int) - (limit : Int))
            ++ " more rows\n") ++ post) ∧
    ((r.rowCount ≤ limit ∨ limit = 0) →
      formatResults r (some limit) = formatResults r none) ∧
    displayedRows r none = r.rows := by
  refine ⟨?_, ?_, by simp [displayedRows, jsOptTruthy]⟩
  · intro hl hlt
    have hne : limit ≠ 0 := Nat.pos_iff_ne_zero.mp hl
    have hlt' : limit < r.rows.length := hwf ▸ hlt
    constructor
    · simp only [displayedRows, jsOptTruthy, bne_iff_ne, ne_eq, hne, not_false_eq_true,
        if_pos, List.length_take, Option.getD_some]
      exact Nat.min_eq_left hlt'.le
    · refine ⟨formatHeader r (some limit) ++ "\n" ++ formatSeparator r (some limit) ++ "\n"
          ++ formatBody r (some limit),
        "\n" ++ toString r.rowCount ++ " rows" ++ formatTiming r, ?_⟩
      have h0 : ¬ r.rowCount = 0 := by omega
      have hcond : (jsOptTruthy (some limit)
          && decide ((some limit).getD 0 < r.rows.length)) = true := by
        simp [jsOptTruthy, hne, hlt']
      simp only [formatResults, h0, if_false, hcond, if_true, Option.getD_some,
        ite_false, ite_true, Bool.true_eq_false, reduceIte]
      simp [String.append_assoc, jsOptTruthy, hne, hlt']
      rw [show (" more rows\n\n" : String) = " more rows\n" ++ "\n" from rfl,
        String.append_assoc]
  · intro h
    rcases h with h | h
    · have hne : ¬ (limit < r.rows.length) := by omega
      have htake : r.rows.take limit = r.rows :=
        List.take_of_length_le (by omega)
      refine formatResults_nofooter_congr r (some limit) none ?_ ?_ (by simp [jsOptTruthy])
      · simp [displayedRows, jsOptTruthy, htake]
      · simp [jsOptTruthy, hne]
    · subst h
      refine formatResults_nofooter_congr r (some 0) none ?_ ?_ (by simp [jsOptTruthy])
      · simp [displayedRows, jsOptTruthy]
      · simp [jsOptTruthy]

/-- Witness for C3 (amended) at a concrete two-row result with limit 1. -/
theorem formatResults_limit_spec_witness :
    (displayedRows { columns := ["a"], rows := [[Value.vnum 1], [Value.vnum 2]],
                     rowCount := 2, executionTime := some 3 } (some 1)).length = 1 ∧
    ∃ pre post,
      formatResults { columns := ["a"], rows := [[Value.vnum 1], [Value.vnum 2]],
                      rowCount := 2, executionTime := some 3 } (some 1)
        = pre ++ ("\n... and "
            ++ toString ((({ columns := ["a"], rows := [[Value.vnum 1], [Value.vnum 2]],
                             rowCount := 2, executionTime := some 3 } : QueryResult).rowCount : Int)
                - ((1 : Nat) : Int))
            ++ " more rows\n") ++ post :=
  (formatResults_limit_spec
    { columns := ["a"], rows := [[Value.vnum 1], [Value.vnum 2]],
      rowCount := 2, executionTime := some 3 } 1 rfl (by decide)).1
    (by decide) (by decide)

/-- Nullifying a falsy cell does not change how it renders. -/
theorem displayCell_nullifyFalsy (v : Value) :
    displayCell (nullifyFalsy v) = displayCell v := by
  rcases h : jsTruthy v with _ | _
  · rw [nullifyFalsy, if_neg (by simp [h]),
      show displayCell Value.vnull = "" from rfl, displayCell, if_neg (by simp [h])]
  · rw [nullifyFalsy, if_pos (by simp [h])]

/-- Nullifying falsy cells commutes with array indexing as far as rendering
is concerned. -/
theorem displayCell_jsIndex_map (row : List Value) (i : Nat) :
    displayCell (jsIndex (row.map nullifyFalsy) i) = displayCell (jsIndex row i) := by
  rcases Nat.lt_or_ge i row.length with h | h
  · have h' : i < (row.map nullifyFalsy).length := by simpa using h
    rw [jsIndex, jsIndex, List.getD_eq_getElem _ _ h', List.getD_eq_getElem _ _ h,
      List.getElem_map]
    exact displayCell_nullifyFalsy _
  · have h' : (row.map nullifyFalsy).length ≤ i := by simpa using h
    rw [jsIndex, jsIndex, List.getD_eq_default _ _ h', List.getD_eq_default _ _ h]

/-- A data line is unchanged by nullifying falsy cells. -/
theorem rowLine_map_nullifyFalsy (widths : List Nat) (row : List Value) :
    rowLine widths (row.map nullifyFalsy) = rowLine widths row := by
  simp only [rowLine, List.enum_map, List.map_map]
  congr 1
  refine List.map_congr_left ?_
  intro p _
  simp [Function.comp, Prod.map, displayCell_nullifyFalsy]

/-- Displayed rows of the nullified result are the nullified displayed rows. -/
theorem displayedRows_map_nullifyFalsy (r : QueryResult) (limit : Option Nat) :
    displayedRows { r with rows := r.rows.map (List.map nullifyFalsy) } limit
      = (displayedRows r limit).map (List.map nullifyFalsy) := by
  rcases limit with _ | n
  · simp [displayedRows, jsOptTruthy]
  · by_cases hn : n = 0 <;>
      simp [displayedRows, jsOptTruthy, hn, List.map_take]

/-- Column widths are unchanged by nullifying falsy cells. -/
theorem colWidths_map_nullifyFalsy (r : QueryResult) (limit : Option Nat) :
    colWidths { r with rows := r.rows.map (List.map nullifyFalsy) } limit
      = colWidths r limit := by
  simp only [colWidths, displayedRows_map_nullifyFalsy, List.map_map]
  apply List.map_congr_left
  intro p _
  have hmap : List.map ((fun row => (displayCell (jsIndex row p.1)).length)
        ∘ List.map nullifyFalsy) (displayedRows r limit)
      = List.map (fun row => (displayCell (jsIndex row p.1)).length)
        (displayedRows r limit) := by
    apply List.map_congr_left
    intro row _
    simp [Function.comp, displayCell_jsIndex_map]
  simp [hmap]

/-- The data-row block is unchanged by nullifying falsy cells. -/
theorem formatBody_map_nullifyFalsy (r : QueryResult) (limit : Option Nat) :
    formatBody { r with rows := r.rows.map (List.map nullifyFalsy) } limit
      = formatBody r limit := by
  simp only [formatBody, colWidths_map_nullifyFalsy, displayedRows_map_nullifyFalsy,
    List.map_map]
  congr 1
  apply List.map_congr_left
  intro row _
  simp [Function.comp, rowLine_map_nullifyFalsy]

/-- C8: every falsy cell (`null`, `undefined`, `0`, `false`, `NaN`, `""`)
renders as the empty string, so replacing all falsy cells by `null` leaves
the formatted output unchanged (a cell holding `0` prints like a `null`
cell); and the "(Nms)" timing suffix is omitted when `executionTime` is `0`,
exactly as when it is absent. -/
theorem formatResults_falsy_spec :
    (∀ v, jsTruthy v = false → displayCell v = "") ∧
    (∀ (r : QueryResult) (limit : Option Nat),
      formatResults { r with rows := r.rows.map (List.map nullifyFalsy) } limit
        = formatResults r limit) ∧
    (∀ (r : QueryResult) (limit : Option Nat), r.executionTime = some 0 →
      formatResults r limit = formatResults { r with executionTime := none } limit) := by
  refine ⟨?_, ?_, ?_⟩
  · intro v h
    rw [displayCell, if_neg (by simp [h])]
  · intro r limit
    simp only [formatResults, formatHeader, formatSeparator,
      formatBody_map_nullifyFalsy, colWidths_map_nullifyFalsy, formatTiming,
      List.length_map]
  · intro r limit h
    simp only [formatResults, formatHeader, formatSeparator, formatBody,
      formatTiming, colWidths, displayedRows, h, jsOptTruthy]
    simp

/-- Witness for C8: a `0` cell renders empty, and a zero execution time is
rendered like an absent one. -/
theorem formatResults_falsy_spec_witness :
    displayCell (Value.vnum 0) = "" ∧
    formatResults { columns := ["a"], rows := [[Value.vnum 0]],
                    rowCount := 1, executionTime := some 0 } none
      = formatResults { columns := ["a"], rows := [[Value.vnum 0]],
                        rowCount := 1, executionTime := none } none :=
  ⟨formatResults_falsy_spec.1 (Value.vnum 0) rfl,
   formatResults_falsy_spec.2.2
     { columns := ["a"], rows := [[Value.vnum 0]],
       rowCount := 1, executionTime := some 0 } none rfl⟩

/-- C2: `detectPathType` — an existing directory gives a read-only directory
config; an existing regular file with lowercased extension `.db`, `.duckdb`
or `.sqlite` gives a read-only file config; any other extension fails with
the unsupported-file-type error; a missing path fails with the
path-not-found error. -/
theorem detectPathType_spec (fs : String → StatOutcome) (p : String) :
    (fs p = .dir →
      detectPathType fs p = .ok { path := p, isDirectory := true, readonly := true }) ∧
    (fs p = .file →
      (toLowerCase (extname p) = ".db" ∨ toLowerCase (extname p) = ".duckdb" ∨
        toLowerCase (extname p) = ".sqlite") →
      detectPathType fs p = .ok { path := p, isDirectory := false, readonly := true }) ∧
    (fs p = .file →
      ¬(toLowerCase (extname p) = ".db" ∨ toLowerCase (extname p) = ".duckdb" ∨
        toLowerCase (extname p) = ".sqlite") →
      detectPathType fs p = .error ("Unsupported file type: " ++ toLowerCase (extname p)
        ++ ". Use .db, .duckdb, or specify a directory.")) ∧
    (fs p = .enoent →
      detectPathType fs p = .error ("Path does not exist: " ++ p)) := by
  refine ⟨?_, ?_, ?_, ?_⟩
  · intro h; simp [detectPathType, h]
  · intro h hext; simp [detectPathType, h, hext]
  · intro h hext; simp [detectPathType, h, hext]
  · intro h; simp [detectPathType, h]

/-- Witness for C2 on a four-path concrete file system. -/
theorem detectPathType_spec_witness :
    detectPathType (fun q => if q = "d" then .dir else if q = "f.DB" then .file
        else if q = "f.txt" then .file else .enoent) "d"
      = .ok { path := "d", isDirectory := true, readonly := true } ∧
    detectPathType (fun q => if q = "d" then .dir else if q = "f.DB" then .file
        else if q = "f.txt" then .file else .enoent) "f.DB"
      = .ok { path := "f.DB", isDirectory := false, readonly := true } ∧
    detectPathType (fun q => if q = "d" then .dir else if q = "f.DB" then .file
        else if q = "f.txt" then .file else .enoent) "f.txt"
      = .error "Unsupported file type: .txt. Use .db, .duckdb, or specify a directory." ∧
    detectPathType (fun q => if q = "d" then .dir else if q = "f.DB" then .file
        else if q = "f.txt" then .file else .enoent) "missing"
      = .error "Path does not exist: missing" := by
  refine ⟨(detectPathType_spec _ "d").1 (by decide), ?_, ?_,
    (detectPathType_spec _ "missing").2.2.2 (by decide)⟩
  · have h := (detectPathType_spec (fun q => if q = "d" then StatOutcome.dir
        else if q = "f.DB" then .file else if q = "f.txt" then .file else .enoent)
      "f.DB").2.1 (by decide) (by decide)
    exact h
  · have h := (detectPathType_spec (fun q => if q = "d" then StatOutcome.dir
        else if q = "f.DB" then .file else if q = "f.txt" then .file else .enoent)
      "f.txt").2.2.1 (by decide) (by decide)
    exact h

/-- The loop of `loadDirectoryData` visits every extension in order no
matter what the per-extension attempts do. -/
theorem loadExtLoop_covers (engine : String → Except String Unit)
    (globber : String → Except String (List String)) (dataPath : String)
    (exts : List String) :
    (loadExtLoop engine globber dataPath exts).map Prod.fst = exts := by
  induction exts with
  | nil => rfl
  | cons e rest ih =>
      cases h : attemptExtension engine globber dataPath e <;>
        simp [loadExtLoop, h, ih]

/-- C4: on a directory config, `loadData` records one attempt per supported
extension — `csv`, `parquet`, `json`, `jsonl`, in that order — for every
possible behaviour of the engine and of the glob library.  In particular a
failure of one extension (including the case where the bulk registration
fails and the per-file fallback fails and re-throws) never prevents the
remaining extensions from being attempted, and `loadData` itself always
returns. -/
theorem loadData_spec (engine : String → Except String Unit)
    (globber : String → Except String (List String)) (config : DatabaseConfig)
    (h : config.isDirectory = true) :
    (loadData engine globber config).map Prod.fst
      = ["csv", "parquet", "json", "jsonl"] := by
  simp only [loadData, h, if_true, loadDirectoryData]
  exact loadExtLoop_covers engine globber config.path supportedExtensions

/-- Witness for C4 with an engine that fails every statement (so the bulk
registration and the fallback both fail and the fallback re-throws) and a
globber that finds files for every pattern. -/
theorem loadData_spec_witness :
    (loadData (fun _ => .error "schema mismatch") (fun _ => .ok ["data/a.csv", "data/b.csv"])
        { path := "data", isDirectory := true, readonly := true }).map Prod.fst
      = ["csv", "parquet", "json", "jsonl"] :=
  loadData_spec (fun _ => .error "schema mismatch")
    (fun _ => .ok ["data/a.csv", "data/b.csv"])
    { path := "data", isDirectory := true, readonly := true } rfl

/-- C5: `connect` opens `:memory:` in `read_write` mode exactly when the
config is a directory target, and the configured file in `read_only` mode
exactly when it is a file target; an engine open error is wrapped as
`Failed to connect to DuckDB: <native message>`. -/
theorem connect_spec (engineOpen : String → String → Option String)
    (config : DatabaseConfig) :
    (connectTarget config = (":memory:", "read_write") ↔ config.isDirectory = true) ∧
    (connectTarget config = (config.path, "read_only") ↔ config.isDirectory = false) ∧
    (∀ e, engineOpen (connectTarget config).1 (connectTarget config).2 = some e →
      connect engineOpen config = .error ("Failed to connect to DuckDB: " ++ e)) ∧
    (engineOpen (connectTarget config).1 (connectTarget config).2 = none →
      connect engineOpen config = .ok ()) := by
  refine ⟨?_, ?_, ?_, ?_⟩
  · cases h : config.isDirectory <;> simp [connectTarget, h]
  · cases h : config.isDirectory <;> simp [connectTarget, h]
  · intro e he; simp [connect, he]
  · intro he; simp [connect, he]

/-- Witness for C5: a failing open on a file config is wrapped. -/
theorem connect_spec_witness :
    connect (fun _ _ => some "io error")
        { path := "/db/x.db", isDirectory := false, readonly := true }
      = .error "Failed to connect to DuckDB: io error" ∧
    connect (fun _ _ => none)
        { path := "data", isDirectory := true, readonly := true }
      = .ok () :=
  ⟨(connect_spec (fun _ _ => some "io error")
      { path := "/db/x.db", isDirectory := false, readonly := true }).2.2.1 _ rfl,
   (connect_spec (fun _ _ => none)
      { path := "data", isDirectory := true, readonly := true }).2.2.2 rfl⟩

/-- C9: `close()` is idempotent — on an already-closed connection it
returns successfully, makes no engine call and leaves the state unchanged;
`close(); close()` is observably the same as a single `close()`; and after
any successful `close()` the connection reports not connected. -/
theorem closeConn_spec (beh : Nat → Option String) (s : ConnState) :
    (s.db = none → closeConn beh s = (.ok (), s, [])) ∧
    closeConnTwice beh s = closeConn beh s ∧
    (∀ s' tr, closeConn beh s = (.ok (), s', tr) → isConnected s' = false) := by
  refine ⟨?_, ?_, ?_⟩
  · intro h
    simp [closeConn, h]
  · rcases hdb : s.db with _ | hdl
    · simp [closeConnTwice, closeConn, hdb]
    · rcases hbeh : beh hdl with _ | e <;>
        simp [closeConnTwice, closeConn, hdb, hbeh]
  · intro s' tr hok
    rcases hdb : s.db with _ | hdl
    · simp [closeConn, hdb] at hok
      obtain ⟨h1, -⟩ := hok
      simp [isConnected, ← h1, hdb]
    · rcases hbeh : beh hdl with _ | e
      · simp [closeConn, hdb, hbeh] at hok
        obtain ⟨h1, -⟩ := hok
        simp [isConnected, ← h1]
      · simp [closeConn, hdb, hbeh] at hok

/-- Witness for C9: closed state no-op, and a successful close reports
disconnected. -/
theorem closeConn_spec_witness :
    closeConn (fun _ => none) { db := none }
      = (.ok (), { db := none }, []) ∧
    isConnected ({ db := none } : ConnState) = false :=
  ⟨(closeConn_spec (fun _ => none) { db := none }).1 rfl,
   (closeConn_spec (fun _ => none) { db := some 3 }).2.2 { db := none } [3] rfl⟩

/-- `heapWrite` at one address leaves every other address unchanged. -/
theorem heapRead_heapWrite_ne (h : List DatabaseConfig) (i j : Nat)
    (f : DatabaseConfig → DatabaseConfig) (hne : i ≠ j) :
    heapRead (heapWrite h j f) i = heapRead h i := by
  induction h generalizing i j with
  | nil => simp [heapWrite]
  | cons c rest ih =>
      cases j with
      | zero =>
          cases i with
          | zero => exact absurd rfl hne
          | succ i' => simp [heapWrite, heapRead]
      | succ j' =>
          cases i with
          | zero => simp [heapWrite, heapRead]
          | succ i' =>
              have := ih i' j' (fun hij => hne (by omega))
              simpa [heapWrite, heapRead] using this

/-- C10: `getConfig` is a defensive copy — the returned object is a fresh
allocation distinct from the manager's internal config object; creating it
modifies no existing cell; mutating any field of the returned object leaves
the internal config unchanged, so a subsequent `getConfig` still copies the
original values. -/
theorem getConfig_spec (h : List DatabaseConfig) (self : Nat)
    (hself : self < h.length) :
    (getConfig h self).1 ≠ self ∧
    (∀ i, i < h.length → heapRead (getConfig h self).2 i = heapRead h i) ∧
    (∀ f, heapRead (heapWrite (getConfig h self).2 (getConfig h self).1 f) self
      = heapRead h self) ∧
    (∀ f, getConfigValue (heapWrite (getConfig h self).2 (getConfig h self).1 f) self
      = getConfigValue h self) := by
  have hr : (getConfig h self).1 = h.length := rfl
  refine ⟨by omega, ?_, ?_, ?_⟩
  · intro i hi
    simp [getConfig, heapRead, List.getElem?_append, hi]
  · intro f
    rw [heapRead_heapWrite_ne _ _ _ _ (by omega)]
    simp [getConfig, heapRead, List.getElem?_append, hself]
  · intro f
    rw [getConfigValue, heapRead_heapWrite_ne _ _ _ _ (by omega)]
    simp [getConfigValue, getConfig, heapRead, List.getElem?_append, hself]

/-- Witness for C10 on a one-object heap: the copy is fresh, and setting
`isDirectory` on it leaves the internal config readable unchanged. -/
theorem getConfig_spec_witness :
    (getConfig [{ path := "/d", isDirectory := true, readonly := true }] 0).1 ≠ 0 ∧
    heapRead (heapWrite
        (getConfig [{ path := "/d", isDirectory := true, readonly := true }] 0).2
        (getConfig [{ path := "/d", isDirectory := true, readonly := true }] 0).1
        (fun c => { c with isDirectory := false })) 0
      = heapRead [{ path := "/d", isDirectory := true, readonly := true }] 0 :=
  ⟨(getConfig_spec [{ path := "/d", isDirectory := true, readonly := true }] 0
      (by decide)).1,
   (getConfig_spec [{ path := "/d", isDirectory := true, readonly := true }] 0
      (by decide)).2.2.1 (fun c => { c with isDirectory := false })⟩

/-- C6: the dispatch handler is total — an unregistered tool name yields an
error-flagged response whose text contains "Unknown tool", and whenever the
dispatched tool body throws, the error is caught and returned as an
error-flagged content item carrying the error's message (never propagated). -/
theorem callToolHandler_spec (tools : Tools) (name : String) (args : ToolArgs) :
    (name ∉ knownToolNames →
      (callToolHandler tools name args).isError = true ∧
      ∃ pre post, (callToolHandler tools name args).content
        = [{ type := "text", text := pre ++ "Unknown tool" ++ post }]) ∧
    (∀ m, dispatchBody tools name args = .error m →
      callToolHandler tools name args
        = { content := [{ type := "text", text := "Error: " ++ m }], isError := true }) ∧
    (∀ s, dispatchBody tools name args = .ok s →
      callToolHandler tools name args
        = { content := [{ type := "text", text := s }], isError := false }) := by
  refine ⟨?_, ?_, ?_⟩
  · intro hname
    simp only [knownToolNames, List.mem_cons, List.mem_singleton, not_or] at hname
    obtain ⟨h1, h2, h3, h4, h5, h6, -⟩ := hname
    have hbody : dispatchBody tools name args = .error ("Unknown tool: " ++ name) := by
      simp [dispatchBody, h1, h2, h3, h4, h5, h6]
    refine ⟨by simp [callToolHandler, hbody], "Error: ", ": " ++ name, ?_⟩
    simp only [callToolHandler, hbody]
    rw [show ("Unknown tool: " : String) = "Unknown tool" ++ ": " from rfl]
    simp only [← String.append_assoc]
  · intro m hm
    simp [callToolHandler, hm]
  · intro s hs
    simp [callToolHandler, hs]

/-- Witness for C6: an unknown tool name, a throwing tool, and a succeeding
tool at the dispatch boundary. -/
theorem callToolHandler_spec_witness :
    (callToolHandler
        { getTables := .ok "[]", getTableSchema := fun _ => .ok "{}",
          describeTable := fun _ => .ok "{}", runQuery := fun _ _ => .ok "ok",
          summarizeTable := fun _ => .error "boom", getDatabaseInfo := .ok "{}" }
        "frobnicate" { table_name := "t", sql := "", limit := none }).isError = true ∧
    callToolHandler
        { getTables := .ok "[]", getTableSchema := fun _ => .ok "{}",
          describeTable := fun _ => .ok "{}", runQuery := fun _ _ => .ok "ok",
          summarizeTable := fun _ => .error "boom", getDatabaseInfo := .ok "{}" }
        "summarize_table" { table_name := "t", sql := "", limit := none }
      = { content := [{ type := "text", text := "Error: boom" }], isError := true } :=
  ⟨((callToolHandler_spec
      { getTables := .ok "[]", getTableSchema := fun _ => .ok "{}",
        describeTable := fun _ => .ok "{}", runQuery := fun _ _ => .ok "ok",
        summarizeTable := fun _ => .error "boom", getDatabaseInfo := .ok "{}" }
      "frobnicate" { table_name := "t", sql := "", limit := none }).1 (by decide)).1,
   (callToolHandler_spec
      { getTables := .ok "[]", getTableSchema := fun _ => .ok "{}",
        describeTable := fun _ => .ok "{}", runQuery := fun _ _ => .ok "ok",
        summarizeTable := fun _ => .error "boom", getDatabaseInfo := .ok "{}" }
      "summarize_table" { table_name := "t", sql := "", limit := none }).2.1
      "boom" rfl⟩

end Duckmcp
